import Mathlib

/-!
Verification of the JSON recovery and chart inference layer of the
foundryAnalytics-chat repository.

The embedding mirrors, at the value level:
- `JSONExtractor.extract_json` from `src/azure_llm_analytics.py` (the
  four-strategy cascade: direct parse, fenced code blocks, bare arrays,
  bare objects, each driven by a regular-expression scan and `json.loads`);
- `AnalyticsPipeline.extract_json` from `src/azure_llm_analytics_dev.py`
  (the four-pattern variant);
- `ChartGenerator.auto_generate_chart` and the dev variant
  `AnalyticsPipeline.create_chart` (pandas dtype partition, numeric
  coercion fallback, chart kind selection);
- the post-extraction part of `AnalyticsPipeline.run_query`;
- `ChatPersistence.save_history` / `load_history` entry construction.

JSON values are modeled by the inductive `JValue`; Python `json.loads`
by the strict recursive-descent parser `jsonParse`; the regular
expressions of the source by a small backtracking engine `reM` whose
search order matches the leftmost, lazy/greedy backtracking semantics of
the `re` module. Machine floats never enter: JSON numbers are kept as a
mantissa/decimal-exponent pair, which is exact for the integer and
decimal literals the code manipulates.
-/

set_option maxRecDepth 4000

/-- JSON values as produced by a strict JSON parse. Numbers are kept exact
as `num m e`, denoting `m * 10 ^ e`, so integer and decimal literals are
represented without floating point. Objects keep field order, with
duplicate keys resolved Python-style (first position, last value). -/
inductive JValue where
  | null : JValue
  | bool : Bool → JValue
  | num : Int → Int → JValue
  | str : String → JValue
  | arr : List JValue → JValue
  | obj : List (String × JValue) → JValue

/-- JSON whitespace characters accepted by `json.loads` between tokens. -/
def isJsonWs (c : Char) : Bool :=
  c = ' ' || c = '\t' || c = '\n' || c = '\r'

/-- Drop leading JSON whitespace. -/
def skipJsonWs : List Char → List Char
  | [] => []
  | c :: l => if isJsonWs c then skipJsonWs l else c :: l

/-- Python dict insertion semantics: replacing an existing key keeps its
position and takes the new value, otherwise the pair is appended. -/
def objInsert : List (String × JValue) → String → JValue → List (String × JValue)
  | [], k, v => [(k, v)]
  | (k0, v0) :: r, k, v =>
    if k0 = k then (k0, v) :: r else (k0, v0) :: objInsert r k v

/-- Numeric value of a digit character. -/
def digitVal (c : Char) : Nat := c.toNat - '0'.toNat

/-- Natural number denoted by a digit list (most significant first). -/
def digitsNat (l : List Char) : Nat :=
  l.foldl (fun a c => a * 10 + digitVal c) 0

/-- Value of a hexadecimal digit, if any. -/
def hexVal (c : Char) : Option Nat :=
  if c.isDigit then some (digitVal c)
  else if 'a' ≤ c ∧ c ≤ 'f' then some (c.toNat - 'a'.toNat + 10)
  else if 'A' ≤ c ∧ c ≤ 'F' then some (c.toNat - 'A'.toNat + 10)
  else none

/-- Single-character JSON string escapes. -/
def simpleEsc (c : Char) : Option Char :=
  if c = '"' then some '"'
  else if c = '\\' then some '\\'
  else if c = '/' then some '/'
  else if c = 'b' then some '\x08'
  else if c = 'f' then some '\x0c'
  else if c = 'n' then some '\n'
  else if c = 'r' then some '\r'
  else if c = 't' then some '\t'
  else none

/-- Body of a JSON string literal after the opening quote, in the strict
mode of `json.loads`: unescaped control characters are rejected. Returns
the decoded characters and the rest of the input after the closing quote. -/
def parseStrAux : List Char → Option (List Char × List Char)
  | [] => none
  | c :: r =>
    if c = '"' then some ([], r)
    else if c = '\\' then
      match r with
      | [] => none
      | e :: r2 =>
        match simpleEsc e with
        | some c2 =>
          match parseStrAux r2 with
          | some (s, rest) => some (c2 :: s, rest)
          | none => none
        | none =>
          if e = 'u' then
            match r2 with
            | h1 :: h2 :: h3 :: h4 :: r3 =>
              match hexVal h1, hexVal h2, hexVal h3, hexVal h4 with
              | some a, some b, some cc, some d =>
                match parseStrAux r3 with
                | some (s, rest) =>
                  some (Char.ofNat (((a * 16 + b) * 16 + cc) * 16 + d) :: s, rest)
                | none => none
              | _, _, _, _ => none
            | _ => none
          else none
    else if c.toNat < 32 then none
    else
      match parseStrAux r with
      | some (s, rest) => some (c :: s, rest)
      | none => none

/-- Leading run of decimal digits. -/
def takeDigitsL (l : List Char) : List Char := l.takeWhile Char.isDigit

/-- Input after its leading run of decimal digits. -/
def dropDigitsL (l : List Char) : List Char := l.dropWhile Char.isDigit

/-- JSON number literal, following the number regex of the `json` module:
`-?(0|[1-9][0-9]*)` then an optional `.digits` fraction and an optional
exponent, each silently not consumed when incomplete. -/
def parseJNum (l : List Char) : Option (JValue × List Char) :=
  let (neg, l1) := match l with
    | '-' :: r => (true, r)
    | _ => (false, l)
  let ipOpt : Option (List Char × List Char) :=
    match l1 with
    | '0' :: r => some (['0'], r)
    | c :: _ =>
      if c.isDigit then some (takeDigitsL l1, dropDigitsL l1) else none
    | [] => none
  match ipOpt with
  | none => none
  | some (ip, r1) =>
    let (fp, r2) :=
      match r1 with
      | '.' :: rf =>
        let ds := takeDigitsL rf
        if ds.isEmpty then ([], r1) else (ds, dropDigitsL rf)
      | _ => ([], r1)
    let (ex, r3) :=
      match r2 with
      | c :: re =>
        if c = 'e' ∨ c = 'E' then
          let (sgn, rs) : Int × List Char :=
            match re with
            | '+' :: x => (1, x)
            | '-' :: x => (-1, x)
            | _ => (1, re)
          let ds := takeDigitsL rs
          if ds.isEmpty then ((0 : Int), r2)
          else (sgn * (digitsNat ds : Int), dropDigitsL rs)
        else ((0 : Int), r2)
      | [] => ((0 : Int), r2)
    let mAbs : Int := (digitsNat (ip ++ fp) : Int)
    let m : Int := if neg then -mAbs else mAbs
    some (.num m (ex - (fp.length : Int)), r3)

mutual

/-- One JSON value at the head of the input (no leading whitespace),
returning the value and the unconsumed rest. Fuelled recursion; the fuel
used at top level always suffices since every level consumes input. -/
def parseValue : Nat → List Char → Option (JValue × List Char)
  | 0, _ => none
  | fuel + 1, l =>
    match l with
    | [] => none
    | 'n' :: 'u' :: 'l' :: 'l' :: r => some (.null, r)
    | 't' :: 'r' :: 'u' :: 'e' :: r => some (.bool true, r)
    | 'f' :: 'a' :: 'l' :: 's' :: 'e' :: r => some (.bool false, r)
    | '"' :: r =>
      match parseStrAux r with
      | some (s, rest) => some (.str (String.mk s), rest)
      | none => none
    | '[' :: r =>
      match skipJsonWs r with
      | ']' :: rest => some (.arr [], rest)
      | r1 => parseElems fuel r1 []
    | '\x7b' :: r =>
      match skipJsonWs r with
      | '\x7d' :: rest => some (.obj [], rest)
      | r1 => parseMembers fuel r1 []
    | c :: _ =>
      if c = '-' ∨ c.isDigit then parseJNum l else none

/-- Comma-separated array elements up to the closing bracket. -/
def parseElems : Nat → List Char → List JValue → Option (JValue × List Char)
  | 0, _, _ => none
  | fuel + 1, l, acc =>
    match parseValue fuel (skipJsonWs l) with
    | none => none
    | some (v, r) =>
      match skipJsonWs r with
      | ',' :: r2 => parseElems fuel r2 (v :: acc)
      | ']' :: r2 => some (.arr (v :: acc).reverse, r2)
      | _ => none

/-- Comma-separated object members up to the closing brace. -/
def parseMembers : Nat → List Char → List (String × JValue) →
    Option (JValue × List Char)
  | 0, _, _ => none
  | fuel + 1, l, acc =>
    match skipJsonWs l with
    | '"' :: r =>
      match parseStrAux r with
      | none => none
      | some (k, r1) =>
        match skipJsonWs r1 with
        | ':' :: r2 =>
          match parseValue fuel (skipJsonWs r2) with
          | none => none
          | some (v, r3) =>
            let acc2 := objInsert acc (String.mk k) v
            match skipJsonWs r3 with
            | ',' :: r4 => parseMembers fuel r4 acc2
            | '\x7d' :: r4 => some (.obj acc2, r4)
            | _ => none
        | _ => none
    | _ => none

end

/-- Model of `json.loads`: strict parse of the whole input, allowing
surrounding whitespace, rejecting trailing data. -/
def jsonParse (s : String) : Option JValue :=
  let l := skipJsonWs s.toList
  match parseValue (s.length + 1) l with
  | some (v, r) => if (skipJsonWs r).isEmpty then some v else none
  | none => none


/-! ## A small backtracking regular-expression engine

`reM` explores alternatives in exactly the order of the `re` module:
alternation and `?` prefer the left/consuming branch, greedy stars take
the longest repetition first, lazy stars the shortest, and the engine as
a whole is run at successive start positions, so the first position with
any match yields the leftmost match. Fuel bounds the recursion depth; it
is chosen from the subject length so that no search within this file is
ever cut short. -/

/-- The characters matched by the `\s` class of the `re` module. -/
def isPySpace (c : Char) : Bool :=
  c = ' ' || c = '\t' || c = '\n' || c = '\r' || c = '\x0b' || c = '\x0c'

/-- Regular expression syntax used by the scanners of the source. -/
inductive RE where
  | eps : RE
  | chr : Char → RE
  | cls : (Char → Bool) → RE
  | seqR : RE → RE → RE
  | altR : RE → RE → RE
  | optR : RE → RE
  | starG : RE → RE
  | starL : RE → RE

/-- Continuation-passing backtracking matcher. The continuation receives
the unconsumed suffix; the first continuation success in backtracking
order is returned, matching the search order of the `re` module. -/
def reM {α : Type} : Nat → RE → List Char → (List Char → Option α) → Option α
  | 0, _, _, _ => none
  | _ + 1, .eps, l, k => k l
  | _ + 1, .chr c, l, k =>
    match l with
    | x :: r => if x = c then k r else none
    | [] => none
  | _ + 1, .cls p, l, k =>
    match l with
    | x :: r => if p x then k r else none
    | [] => none
  | fuel + 1, .seqR a b, l, k => reM fuel a l (fun r => reM fuel b r k)
  | fuel + 1, .altR a b, l, k =>
    match reM fuel a l k with
    | some x => some x
    | none => reM fuel b l k
  | fuel + 1, .optR r, l, k =>
    match reM fuel r l k with
    | some x => some x
    | none => k l
  | fuel + 1, .starG r, l, k =>
    match reM fuel r l (fun rest => reM fuel (.starG r) rest k) with
    | some x => some x
    | none => k l
  | fuel + 1, .starL r, l, k =>
    match k l with
    | some x => some x
    | none => reM fuel r l (fun rest => reM fuel (.starL r) rest k)

/-- Literal string as a regular expression. -/
def litRE (s : String) : RE := s.toList.foldr (fun c a => .seqR (.chr c) a) .eps

/-- Sequence of regular expressions. -/
def seqs (l : List RE) : RE := l.foldr .seqR .eps

/-- `\s*` (greedy). -/
def wsStarRE : RE := .starG (.cls isPySpace)

/-- `.*?` under `re.DOTALL`: lazy, any character including newline. -/
def dotLazy : RE := .starL (.cls (fun _ => true))

/-- The `[^{}]` character class. -/
def nonBraceRE : RE := .cls (fun c => ¬ (c = '\x7b' ∨ c = '\x7d'))

/-- `\[.*?\]` (lazy bracket body). -/
def lazyBracket : RE := seqs [.chr '[', dotLazy, .chr ']']

/-- `\{.*?\}` (lazy brace body). -/
def lazyBrace : RE := seqs [.chr '\x7b', dotLazy, .chr '\x7d']

/-- Match `pre`, then the capture group `grp`, then `post` at the head of
the input, returning the captured substring and the input remaining after
the whole match. The decomposition into three nested calls is exactly the
sequencing of the full pattern, so backtracking crosses the boundaries as
in the original regular expression. -/
def matchPat (pre grp post : RE) (l : List Char) : Option (String × List Char) :=
  let fuel := 8 * l.length + 120
  reM fuel pre l (fun l1 =>
    reM fuel grp l1 (fun l2 =>
      reM fuel post l2 (fun l3 =>
        some (String.mk (l1.take (l1.length - l2.length)), l3))))

/-- `re.findall` driver: scan start positions left to right, emit each
leftmost non-overlapping match capture, resume after the match end
(advancing at least one character, as `findall` does on empty matches). -/
def findAllAux (pre grp post : RE) : Nat → List Char → List String
  | 0, _ => []
  | _ + 1, [] => []
  | n + 1, l =>
    match matchPat pre grp post l with
    | some (cap, rem) =>
      if rem.length < l.length then cap :: findAllAux pre grp post n rem
      else cap :: findAllAux pre grp post n (l.drop 1)
    | none => findAllAux pre grp post n (l.drop 1)

/-- All captures of the pattern `pre (grp) post` in the text, in text
order, mirroring `re.findall`. -/
def findAllPat (pre grp post : RE) (text : String) : List String :=
  findAllAux pre grp post (text.length + 1) text.toList

/-! ## The production extractor `JSONExtractor.extract_json` -/

/-- Fenced-block pattern of strategy 2, split around its capture group:
the source pattern is three backticks, an optional `json` tag, `\s*`,
then `(\[.*?\]|\{.*?\})`, then `\s*` and three closing backticks, under
`re.DOTALL`. -/
def fencedPre : RE := seqs [litRE "```", .optR (litRE "json"), wsStarRE]

/-- Capture group of the fenced-block pattern. -/
def fencedGrp : RE := .altR lazyBracket lazyBrace

/-- Tail of the fenced-block pattern after the capture group. -/
def fencedPost : RE := seqs [wsStarRE, litRE "```"]

/-- Strategy 3 array pattern `\[\s*\{.*?\}\s*(?:,\s*\{.*?\}\s*)*\]` under
`re.DOTALL`; the whole match is the candidate. -/
def arrayRE : RE :=
  seqs [.chr '[', wsStarRE, lazyBrace, wsStarRE,
        .starG (seqs [.chr ',', wsStarRE, lazyBrace, wsStarRE]), .chr ']']

/-- Strategy 4 object pattern `\{[^{}]*(?:\{[^{}]*\}[^{}]*)*\}`; the whole
match is the candidate. This pattern follows one level of brace nesting
only. -/
def objectRE : RE :=
  seqs [.chr '\x7b', .starG nonBraceRE,
        .starG (seqs [.chr '\x7b', .starG nonBraceRE, .chr '\x7d', .starG nonBraceRE]),
        .chr '\x7d']

/-- Fenced-block candidates of the text, in text order. -/
def fencedBlocks (text : String) : List String :=
  findAllPat fencedPre fencedGrp fencedPost text

/-- Bare-array candidates of the text, in text order. -/
def arrayMatches (text : String) : List String :=
  findAllPat .eps arrayRE .eps text

/-- Bare-object candidates of the text, in text order. -/
def objectMatches (text : String) : List String :=
  findAllPat .eps objectRE .eps text

/-- First success of `f` along a list: the loop shape of every strategy
(`for match in matches: try ... continue`). -/
def firstSome {α β : Type} (f : α → Option β) : List α → Option β
  | [] => none
  | a :: r =>
    match f a with
    | some b => some b
    | none => firstSome f r

/-- Parse a candidate and accept a JSON array as the record list or wrap
a JSON object as a singleton, as strategies 1 and 2 do; any other parse
result falls through. No element of an accepted array is inspected. -/
def parseListOrDict (s : String) : Option (List JValue) :=
  match jsonParse s with
  | some (.arr xs) => some xs
  | some (.obj f) => some [.obj f]
  | _ => none

/-- Parse a candidate and accept only a JSON array, as strategy 3 does. -/
def parseListOnly (s : String) : Option (List JValue) :=
  match jsonParse s with
  | some (.arr xs) => some xs
  | _ => none

/-- Parse a candidate and accept only a JSON object (wrapped as a
singleton list), as strategy 4 does. -/
def parseDictOnly (s : String) : Option (List JValue) :=
  match jsonParse s with
  | some (.obj f) => some [.obj f]
  | _ => none

/-- Strategy 1: direct parse of the whole text. -/
def strategyDirect (text : String) : Option (List JValue) :=
  parseListOrDict text

/-- Strategy 2: first parsing fenced block. -/
def strategyFenced (text : String) : Option (List JValue) :=
  firstSome parseListOrDict (fencedBlocks text)

/-- Strategy 3: first parsing bare array. -/
def strategyArray (text : String) : Option (List JValue) :=
  firstSome parseListOnly (arrayMatches text)

/-- Strategy 4: first parsing bare object. -/
def strategyObject (text : String) : Option (List JValue) :=
  firstSome parseDictOnly (objectMatches text)

/-- `JSONExtractor.extract_json` of `src/azure_llm_analytics.py`: empty
input yields `none`; otherwise the four strategies run in order and the
first that returns wins. -/
def extract_json (text : String) : Option (List JValue) :=
  if text = "" then none
  else
    match strategyDirect text with
    | some rs => some rs
    | none =>
      match strategyFenced text with
      | some rs => some rs
      | none =>
        match strategyArray text with
        | some rs => some rs
        | none => strategyObject text

/-! ## The dev extractor `AnalyticsPipeline.extract_json` -/

/-- Dev candidate acceptance: a dict becomes a singleton, a list is
returned as is, anything else falls through (same for all patterns). -/
def parseAnyDev (s : String) : Option (List JValue) :=
  match jsonParse s with
  | some (.obj f) => some [.obj f]
  | some (.arr xs) => some xs
  | _ => none

/-- `AnalyticsPipeline.extract_json` of `src/azure_llm_analytics_dev.py`:
four patterns tried in order (json-tagged fenced array, fenced array,
raw array, raw object), first parsing match wins. -/
def extract_json_dev (text : String) : Option (List JValue) :=
  match firstSome parseAnyDev
      (findAllPat (seqs [litRE "```json", wsStarRE]) lazyBracket
        (seqs [wsStarRE, litRE "```"]) text) with
  | some rs => some rs
  | none =>
    match firstSome parseAnyDev
        (findAllPat (seqs [litRE "```", wsStarRE]) lazyBracket
          (seqs [wsStarRE, litRE "```"]) text) with
    | some rs => some rs
    | none =>
      match firstSome parseAnyDev (findAllPat .eps lazyBracket .eps text) with
      | some rs => some rs
      | none => firstSome parseAnyDev (findAllPat .eps lazyBrace .eps text)


/-! ## Chart generation: `ChartGenerator.auto_generate_chart`

A record is an ordered field list, as parsed from a JSON object. The
pandas steps of the source are mirrored field-wise: `pd.DataFrame` on a
list of dicts takes the union of keys in order of first appearance with
missing cells as NaN; `select_dtypes` partitions columns by inferred
dtype; `pd.to_numeric` coerces a column when every present cell is a
number, boolean, null, or a string that parses as a number. -/

/-- One recovered record: ordered mapping from field name to value. -/
abbrev Rec := List (String × JValue)

/-- First binding of a field in a record (keys are unique after a JSON
parse, so this is the binding). -/
def lookupField (f : String) : Rec → Option JValue
  | [] => none
  | (k, v) :: r => if k = f then some v else lookupField f r

/-- Column names of `pd.DataFrame(records)`: keys in order of first
appearance. -/
def columnsOf (recs : List Rec) : List String :=
  recs.foldl
    (fun acc r =>
      r.foldl (fun acc2 kv => if acc2.contains kv.1 then acc2 else acc2 ++ [kv.1]) acc)
    []

/-- Cells of one column, `none` for a record missing the field (NaN). -/
def colVals (recs : List Rec) (f : String) : List (Option JValue) :=
  recs.map (lookupField f)

/-- The dtype classes distinguished by the source: `number`, `bool`, and
`object` (everything else, including strings, nulls and mixtures). -/
inductive DType where
  | numericT : DType
  | boolT : DType
  | objectT : DType
deriving DecidableEq

/-- Cell holds a JSON number. -/
def isNumCell : Option JValue → Bool
  | some (.num _ _) => true
  | _ => false

/-- Cell is null or missing (both become NaN next to numbers). -/
def isNullCell : Option JValue → Bool
  | none => true
  | some .null => true
  | _ => false

/-- Cell holds a boolean. -/
def isBoolCell : Option JValue → Bool
  | some (.bool _) => true
  | _ => false

/-- Cell holds a string. -/
def isStrCell : Option JValue → Bool
  | some (.str _) => true
  | _ => false

/-- pandas dtype inference for a column built from a list of dicts: a
column of numbers (allowing nulls and missing cells, which become NaN)
is numeric; a column of booleans only is `bool`; everything else —
strings, mixtures, all-null columns — is `object`. -/
def dtypeOf (vals : List (Option JValue)) : DType :=
  if vals.any isNumCell && vals.all (fun v => isNumCell v || isNullCell v) then
    .numericT
  else if (!vals.isEmpty) && vals.all isBoolCell then .boolT
  else .objectT

/-- Columns of `object` dtype, in column order: the categorical columns
of the source (`select_dtypes(include=["object"])`). -/
def catColsOf (recs : List Rec) : List String :=
  (columnsOf recs).filter (fun c => decide (dtypeOf (colVals recs c) = .objectT))

/-- Columns of numeric dtype, in column order
(`select_dtypes(include=["number"])`). -/
def numColsOf (recs : List Rec) : List String :=
  (columnsOf recs).filter (fun c => decide (dtypeOf (colVals recs c) = .numericT))

/-- String accepted by `pd.to_numeric` for one cell: optional surrounding
whitespace and sign, digits with an optional decimal fraction, optional
exponent. Returns the exact value as mantissa and decimal exponent. -/
def strToNum (s : String) : Option (Int × Int) :=
  let l0 := s.toList.dropWhile isPySpace
  let l := (l0.reverse.dropWhile isPySpace).reverse
  let (neg, l1) :=
    match l with
    | '-' :: r => (true, r)
    | '+' :: r => (false, r)
    | _ => (false, l)
  let ip := takeDigitsL l1
  let r1 := dropDigitsL l1
  let (fp, r2) :=
    match r1 with
    | '.' :: rf => (takeDigitsL rf, dropDigitsL rf)
    | _ => ([], r1)
  if ip.isEmpty && fp.isEmpty then none
  else
    let finish (ex : Int) : Option (Int × Int) :=
      let mAbs : Int := (digitsNat (ip ++ fp) : Int)
      some ((if neg then -mAbs else mAbs), ex - (fp.length : Int))
    match r2 with
    | [] => finish 0
    | c :: re =>
      if c = 'e' ∨ c = 'E' then
        let (sgn, rs) : Int × List Char :=
          match re with
          | '+' :: x => (1, x)
          | '-' :: x => (-1, x)
          | _ => (1, re)
        let ds := takeDigitsL rs
        if ds.isEmpty || !(dropDigitsL rs).isEmpty then none
        else finish (sgn * (digitsNat ds : Int))
      else none

/-- One cell survives `pd.to_numeric`: numbers, booleans, nulls and
missing cells pass, strings must parse as numbers, anything else raises. -/
def coerceCell : Option JValue → Bool
  | none => true
  | some .null => true
  | some (.num _ _) => true
  | some (.bool _) => true
  | some (.str s) => (strToNum s).isSome
  | some _ => false

/-- `pd.to_numeric` succeeds on the whole column. -/
def coerceOk (vals : List (Option JValue)) : Bool := vals.all coerceCell

/-- Chart kinds in the vocabulary of the specification: a bar chart is a
categorical-by-numeric `comparison`, a pie chart a `distribution`. -/
inductive ChartKind where
  | comparison : ChartKind
  | distribution : ChartKind
deriving DecidableEq

/-- The chart specification produced for the external renderer: kind plus
the bound category and value fields. -/
structure ChartSpec where
  kind : ChartKind
  category_field : String
  value_field : String
deriving DecidableEq

/-- Tail of `auto_generate_chart` once the two columns are bound:
`auto` is rewritten to `bar`; `bar` yields a bar chart, `pie` a pie
chart, any other requested type yields `None`. -/
def mkChartSpec (cat num : String) (chart_type : String) : Option ChartSpec :=
  let t := if chart_type = "auto" then "bar" else chart_type
  if t = "bar" then some ⟨.comparison, cat, num⟩
  else if t = "pie" then some ⟨.distribution, cat, num⟩
  else none

/-- `ChartGenerator.auto_generate_chart` of `src/azure_llm_analytics.py`,
as a chart specification: empty data or fewer than two columns yield
`None`; columns are partitioned by dtype; if either side is empty the
fallback takes the first column as categorical and coerces the second
with `pd.to_numeric`, returning `None` when the coercion raises; finally
the first categorical and first numeric columns are bound and the chart
type branch runs. -/
def auto_generate_chart (recs : List Rec) (chart_type : String) : Option ChartSpec :=
  if recs.isEmpty then none
  else
    let cols := columnsOf recs
    if cols.length < 2 then none
    else
      let catCols := catColsOf recs
      let numCols := numColsOf recs
      if catCols.isEmpty || numCols.isEmpty then
        match cols with
        | c0 :: c1 :: _ =>
          if coerceOk (colVals recs c1) then mkChartSpec c0 c1 chart_type
          else none
        | _ => none
      else
        match catCols, numCols with
        | c :: _, n :: _ => mkChartSpec c n chart_type
        | _, _ => none

/-- `AnalyticsPipeline.create_chart` of `src/azure_llm_analytics_dev.py`:
no column-count check and no coercion fallback; `auto` becomes `pie` for
five or fewer records and `bar` otherwise; `pie` yields a pie chart and
every other type falls to the bar branch. -/
def create_chart_dev (recs : List Rec) (chart_type : String) : Option ChartSpec :=
  if recs.isEmpty then none
  else
    match catColsOf recs, numColsOf recs with
    | x :: _, y :: _ =>
      let t :=
        if chart_type = "auto" then
          if recs.length ≤ 5 then "pie" else "bar"
        else chart_type
      if t = "pie" then some ⟨.distribution, x, y⟩
      else some ⟨.comparison, x, y⟩
    | _, _ => none

/-- Rows that are all JSON objects, as required for the DataFrame the
chart step builds; any other shape makes that step fail and is caught by
the caller of `auto_generate_chart`. -/
def allObjs : List JValue → Option (List Rec)
  | [] => some []
  | .obj f :: r => (allObjs r).map (f :: ·)
  | _ => none

/-- Observable outcome of one pipeline run, as assembled by `run_query`:
the extracted record list (or `None`) next to the chart (or `None`). -/
structure PipelineResult where
  extracted_data : Option (List JValue)
  chart : Option ChartSpec

/-- Post-extraction tail of `AnalyticsPipeline.run_query`: the result
dict starts with `chart = None`; only a truthy (non-`None`, non-empty)
extraction attempts a chart, and any exception inside chart generation
is caught, leaving `chart = None`. -/
def run_query_post (extracted : Option (List JValue)) (chart_type : String) :
    PipelineResult :=
  { extracted_data := extracted
    chart :=
      match extracted with
      | some d =>
        if d.isEmpty then none
        else
          match allObjs d with
          | some recs => auto_generate_chart recs chart_type
          | none => none
      | none => none }

/-! ## Persistence: `ChatPersistence.save_history` / `load_history` -/

/-- One chat history entry as held in session state. The chart is kept as
its serialized JSON value: `figure.to_json` and `go.Figure(json.loads _)`
are inverse external steps, modeled as the identity on that value. -/
structure ChatEntry where
  query : String
  text_response : String
  extracted_data : Option (List JValue)
  chart_type : String
  has_data : Bool
  raw_response : String
  timestamp : String
  chart : Option JValue

/-- The serializable dict built for one entry by `save_history`, with the
field order of the source. -/
def entryToJson (e : ChatEntry) : JValue :=
  .obj
    [("query", .str e.query),
     ("text_response", .str e.text_response),
     ("extracted_data",
       match e.extracted_data with
       | some d => .arr d
       | none => .null),
     ("chart_type", .str e.chart_type),
     ("has_data", .bool e.has_data),
     ("raw_response", .str e.raw_response),
     ("timestamp", .str e.timestamp),
     ("chart_json",
       match e.chart with
       | some c => c
       | none => .null)]

/-- Field access with default, the `entry.get(key, default)` of the
loader. -/
def jGet (j : JValue) (k : String) : Option JValue :=
  match j with
  | .obj f => lookupField k f
  | _ => none

/-- String field with default. -/
def jGetStr (j : JValue) (k : String) (dflt : String) : String :=
  match jGet j k with
  | some (.str s) => s
  | _ => dflt

/-- Python truthiness of a JSON value, for the `if entry.get("chart_json")`
test of the loader. -/
def jTruthy : JValue → Bool
  | .null => false
  | .bool b => b
  | .num m _ => decide (m ≠ 0)
  | .str s => !s.isEmpty
  | .arr l => !l.isEmpty
  | .obj f => !f.isEmpty

/-- One entry as rebuilt by `load_history`, with the same defaults the
source passes to `entry.get`. -/
def jsonToEntry (j : JValue) : ChatEntry :=
  { query := jGetStr j "query" ""
    text_response := jGetStr j "text_response" ""
    extracted_data :=
      match jGet j "extracted_data" with
      | some (.arr d) => some d
      | _ => none
    chart_type := jGetStr j "chart_type" "bar"
    has_data :=
      match jGet j "has_data" with
      | some (.bool b) => b
      | _ => false
    raw_response := jGetStr j "raw_response" ""
    timestamp := jGetStr j "timestamp" ""
    chart :=
      match jGet j "chart_json" with
      | some c => if jTruthy c then some c else none
      | none => none }

/-- `save_history`: the JSON document written to the history file (the
write itself and `json.dump` are external and preserve the value). -/
def save_history (h : List ChatEntry) : JValue :=
  .arr (h.map entryToJson)

/-- `load_history`: entries rebuilt from the JSON document read back. -/
def load_history (j : JValue) : List ChatEntry :=
  match j with
  | .arr l => l.map jsonToEntry
  | _ => []

/-- The persisted fields named by the round-trip contract: query text,
raw response text, extracted records (with field order), chart type. -/
def persistedView (e : ChatEntry) : String × String × Option (List JValue) × String :=
  (e.query, e.raw_response, e.extracted_data, e.chart_type)

/-- A JSON value that is a string. -/
def isStrVal : JValue → Bool
  | .str _ => true
  | _ => false

/-- Every value of every record is a string. -/
def allStrRecs (recs : List Rec) : Bool :=
  recs.all (fun r => r.all (fun kv => isStrVal kv.2))

/-- Cell that is missing or holds a string parsing fully as a number: the
reading of "every value of the field parses as a number" for present
values. -/
def numericStrCell : Option JValue → Bool
  | none => true
  | some (.str s) => (strToNum s).isSome
  | _ => false

/-- The numeric-role criterion in the words of the specification, named
for comparison against the source behaviour: every present value of the
field is a number or a string that fully parses as a number. -/
def specNumericField (recs : List Rec) (f : String) : Bool :=
  (colVals recs f).all (fun v =>
    match v with
    | none => true
    | some (.num _ _) => true
    | some (.str s) => (strToNum s).isSome
    | some _ => false)

/-! ## Sanity evaluations pinning the embedding to traced behaviour of
the source on concrete inputs -/

example : jsonParse "[1, 2]" = some (.arr [.num 1 0, .num 2 0]) := by rfl
example : jsonParse "\x7b\"a\": 1\x7d" = some (.obj [("a", .num 1 0)]) := by rfl
example : jsonParse "[1," = none := by rfl
example : jsonParse "2.5" = some (.num 25 (-1)) := by rfl
example : jsonParse "hello" = none := by rfl
example : jsonParse " [\"x\", null, true] " =
    some (.arr [.str "x", .null, .bool true]) := by rfl
example : fencedBlocks "x ```json\n[1]\n``` y" = ["[1]"] := by rfl
example : fencedBlocks "``` [] ```" = ["[]"] := by rfl
example : objectMatches "a \x7b\"k\": 1\x7d b" = ["\x7b\"k\": 1\x7d"] := by rfl
example :
    objectMatches "x \x7b\"a\": \x7b\"b\": \x7b\"c\": 1\x7d\x7d\x7d" =
      ["\x7b\"b\": \x7b\"c\": 1\x7d\x7d"] := by rfl
example : arrayMatches "go [\x7b\"a\": 1\x7d] now" = ["[\x7b\"a\": 1\x7d]"] := by rfl

/-! ## Claims about the extraction cascade -/

/-- Claim C1 as amended, for the production `JSONExtractor.extract_json`
only: on input text whose only valid JSON records lie inside a
triple-backtick fenced block while the prose holds a bare, unparsable
brace pair, extraction returns the fenced records: the strategies run in
the fixed order direct, fenced-block, bare-array, bare-object, the first
strategy that returns wins, and within the fenced strategy the first
parsing match in text order wins (`strategyFenced` is the first success
along `fencedBlocks`, which lists matches in text order). The claim as
stated also covers the dev `AnalyticsPipeline.extract_json`, for which it
fails: that variant has no direct strategy, its two fenced patterns
capture only `[...]` arrays, and its lazy raw-object pattern truncates at
the first closing brace, so a fenced nested object is missed entirely —
see the counterexample below. -/
theorem extract_json_fenced_priority (text : String) (rs : List JValue)
    (h0 : ¬ text = "") (hd : strategyDirect text = none)
    (hf : strategyFenced text = some rs) :
    extract_json text = some rs := by
  simp [extract_json, h0, hd, hf]

/-- Witness for C1: prose with a bare invalid brace pair before a fenced
JSON array; the direct parse fails, the fenced strategy succeeds, and
extraction returns the fenced records. -/
theorem extract_json_fenced_priority_witness :
    ¬ ("see \x7bno\x7d ```json\n[\x7b\"a\": 1\x7d]\n```" : String) = "" ∧
    strategyDirect "see \x7bno\x7d ```json\n[\x7b\"a\": 1\x7d]\n```" = none ∧
    strategyFenced "see \x7bno\x7d ```json\n[\x7b\"a\": 1\x7d]\n```" =
      some [.obj [("a", .num 1 0)]] ∧
    extract_json "see \x7bno\x7d ```json\n[\x7b\"a\": 1\x7d]\n```" =
      some [.obj [("a", .num 1 0)]] :=
  ⟨by decide, rfl, rfl,
    extract_json_fenced_priority _ _ (by decide) rfl rfl⟩

/-- Counterexample to claim C1 on the cited dev extractor: the fenced
block holds the valid nested object `\x7b"a": \x7b"b": 1\x7d\x7d` and the
prose holds the unparsable brace pair `\x7bbad\x7d`, the in-scenario
situation; the production extractor returns the fenced records, but the
dev extractor returns nothing at all — its fenced patterns capture only
arrays and its lazy raw-object pattern matches only the unparsable
fragments `\x7bbad\x7d` and the truncated `\x7b"a": \x7b"b": 1\x7d`. -/
theorem extract_json_dev_fenced_object_counterexample :
    extract_json "see \x7bbad\x7d ```json\n\x7b\"a\": \x7b\"b\": 1\x7d\x7d\n```" =
      some [.obj [("a", .obj [("b", .num 1 0)])]] ∧
    extract_json_dev "see \x7bbad\x7d ```json\n\x7b\"a\": \x7b\"b\": 1\x7d\x7d\n```" =
      none :=
  ⟨rfl, rfl⟩

/-- Counterexample to claim C3: a fenced block parsing to the empty JSON
array is returned as an empty record list even though a later bare-object
candidate in the same text parses to a non-empty record; nothing falls
through past a successful empty parse. -/
theorem extract_json_empty_counterexample :
    extract_json "``` [] ``` \x7b\"a\": 1\x7d" = some [] ∧
    jsonParse "\x7b\"a\": 1\x7d" = some (.obj [("a", .num 1 0)]) :=
  ⟨rfl, rfl⟩

/-- Claim C3 as amended: a higher-priority candidate that parses is
returned unchanged, whichever strategy produced it and whatever it
parsed to — instantiating `rs` at `[]` covers an empty-array parse
(returned as the empty record list) and at `[.obj []]` an empty-object
parse (wrapped, as the first two conjuncts show, into the one-record list
holding the empty record). No successful parse, empty or not, falls
through to a later strategy, and extraction can return an empty record
list. -/
theorem extract_json_keeps_empty_success (text : String) (rs : List JValue)
    (h0 : ¬ text = "") :
    (jsonParse text = some (.arr []) → strategyDirect text = some []) ∧
    (jsonParse text = some (.obj []) → strategyDirect text = some [.obj []]) ∧
    (strategyDirect text = some rs → extract_json text = some rs) ∧
    (strategyDirect text = none → strategyFenced text = some rs →
      extract_json text = some rs) ∧
    (strategyDirect text = none → strategyFenced text = none →
      strategyArray text = some rs → extract_json text = some rs) ∧
    (strategyDirect text = none → strategyFenced text = none →
      strategyArray text = none → strategyObject text = some rs →
      extract_json text = some rs) := by
  refine ⟨?_, ?_, ?_, ?_, ?_, ?_⟩
  · intro h; simp [strategyDirect, parseListOrDict, h]
  · intro h; simp [strategyDirect, parseListOrDict, h]
  · intro hd; simp [extract_json, h0, hd]
  · intro hd hf; simp [extract_json, h0, hd, hf]
  · intro hd hf ha; simp [extract_json, h0, hd, hf, ha]
  · intro hd hf ha ho; simp [extract_json, h0, hd, hf, ha, ho]

/-- Witness for the amended C3 at two inputs: `[]` parses directly to the
empty array and extraction returns the empty record list; `\x7b\x7d`
parses directly to the empty object and extraction returns the
one-record list holding the empty record. -/
theorem extract_json_keeps_empty_success_witness :
    (jsonParse "[]" = some (.arr []) ∧
      strategyDirect "[]" = some [] ∧
      extract_json "[]" = some []) ∧
    (jsonParse "\x7b\x7d" = some (.obj []) ∧
      strategyDirect "\x7b\x7d" = some [.obj []] ∧
      extract_json "\x7b\x7d" = some [.obj []]) :=
  ⟨⟨rfl, (extract_json_keeps_empty_success "[]" [] (by decide)).1 rfl,
      (extract_json_keeps_empty_success "[]" [] (by decide)).2.2.1 rfl⟩,
    ⟨rfl, (extract_json_keeps_empty_success "\x7b\x7d" [.obj []] (by decide)).2.1 rfl,
      (extract_json_keeps_empty_success "\x7b\x7d" [.obj []] (by decide)).2.2.1 rfl⟩⟩

/-- Claim C4 as a code defect: the candidate `[1, 2, 3]` parses as a JSON
sequence whose elements are not mappings, yet `extract_json` returns it
as the recovered record list instead of rejecting the candidate — the
source checks `isinstance(parsed, list)` only and never inspects the
elements, contradicting its own `Optional[List[Dict[str, Any]]]`
annotation. -/
theorem extract_json_returns_non_mapping_rows :
    extract_json "[1, 2, 3]" = some [.num 1 0, .num 2 0, .num 3 0] := rfl

/-- Claim C6 as a code defect: on prose containing a bare object nested
two levels deep, the bare-object pattern (which follows only one level of
brace nesting) matches the inner object `\x7b"b": \x7b"c": 1\x7d\x7d`, so
extraction returns that truncated fragment rather than the complete
object. -/
theorem extract_json_truncates_nested_object :
    extract_json "x \x7b\"a\": \x7b\"b\": \x7b\"c\": 1\x7d\x7d\x7d" =
      some [.obj [("b", .obj [("c", .num 1 0)])]] := rfl

/-- Claim C7: both extractors are total functions into an option type —
on every input string they return either a record list or nothing, and a
candidate that fails to parse merely advances the cascade (each strategy
is a first-success fold over its candidates). -/
theorem extract_json_never_throws (text : String) :
    (extract_json text = none ∨ ∃ rs, extract_json text = some rs) ∧
    (extract_json_dev text = none ∨ ∃ rs, extract_json_dev text = some rs) := by
  constructor
  · cases h : extract_json text with
    | none => exact Or.inl rfl
    | some rs => exact Or.inr ⟨rs, rfl⟩
  · cases h : extract_json_dev text with
    | none => exact Or.inl rfl
    | some rs => exact Or.inr ⟨rs, rfl⟩

/-- Witness for C7 at a concrete prose input. -/
theorem extract_json_never_throws_witness :
    (extract_json "I do not have that information." = none ∨
      ∃ rs, extract_json "I do not have that information." = some rs) ∧
    (extract_json_dev "I do not have that information." = none ∨
      ∃ rs, extract_json_dev "I do not have that information." = some rs) :=
  extract_json_never_throws "I do not have that information."

/-! ## Claims about field classification and chart selection -/

/-- A successful `lookupField` exhibits a binding of the record. -/
theorem lookupField_mem {f : String} {r : Rec} {v : JValue}
    (h : lookupField f r = some v) : (f, v) ∈ r := by
  induction r with
  | nil => simp [lookupField] at h
  | cons kv t ih =>
    obtain ⟨k, w⟩ := kv
    simp only [lookupField] at h
    split at h
    · next hk =>
      injection h with h2
      subst hk
      subst h2
      exact List.mem_cons_self _ _
    · exact List.mem_cons_of_mem _ (ih h)

/-- Under `allStrRecs`, every cell of every column is missing or a
string. -/
theorem cells_str {recs : List Rec} (hs : allStrRecs recs = true)
    (f : String) :
    ∀ ov ∈ colVals recs f, ov = none ∨ ∃ s, ov = some (.str s) := by
  intro ov hov
  rcases List.mem_map.mp hov with ⟨r, hr, rfl⟩
  cases hlf : lookupField f r with
  | none => exact Or.inl rfl
  | some v =>
    have hmem := lookupField_mem hlf
    have hra := (List.all_eq_true.mp hs) r hr
    have hv := (List.all_eq_true.mp hra) (f, v) hmem
    cases v <;> simp [isStrVal] at hv
    exact Or.inr ⟨_, rfl⟩

/-- A string cell is not a numeric cell. -/
theorem isNumCell_false_of_str {v : Option JValue}
    (h : isStrCell v = true) : isNumCell v = false := by
  cases v with
  | none => simp [isStrCell] at h
  | some jv => cases jv <;> simp_all [isStrCell, isNumCell]

/-- A string cell is not a boolean cell. -/
theorem isBoolCell_false_of_str {v : Option JValue}
    (h : isStrCell v = true) : isBoolCell v = false := by
  cases v with
  | none => simp [isStrCell] at h
  | some jv => cases jv <;> simp_all [isStrCell, isBoolCell]

/-- A column whose cells are all strings has `object` dtype. -/
theorem dtypeOf_objectT_of_all_str {vals : List (Option JValue)}
    (h : vals.all isStrCell = true) : dtypeOf vals = .objectT := by
  have h1 : vals.any isNumCell = false := by
    rw [List.any_eq_false]
    intro x hx
    simp [isNumCell_false_of_str ((List.all_eq_true.mp h) x hx)]
  cases vals with
  | nil => rfl
  | cons x t =>
    have hx := (List.all_eq_true.mp h) x (List.mem_cons_self x t)
    have h2 : (x :: t).all isBoolCell = false := by
      simp [List.all_cons, isBoolCell_false_of_str hx]
    simp [dtypeOf, h1, h2]

/-- A column whose cells are all missing or strings has `object` dtype. -/
theorem dtypeOf_objectT_of_strOrNone {vals : List (Option JValue)}
    (h : ∀ ov ∈ vals, ov = none ∨ ∃ s, ov = some (.str s)) :
    dtypeOf vals = .objectT := by
  have h1 : vals.any isNumCell = false := by
    rw [List.any_eq_false]
    intro x hx
    rcases h x hx with rfl | ⟨s, rfl⟩ <;> simp [isNumCell]
  cases vals with
  | nil => rfl
  | cons x t =>
    have hx := h x (List.mem_cons_self x t)
    have h2 : (x :: t).all isBoolCell = false := by
      rcases hx with rfl | ⟨s, rfl⟩ <;> simp [List.all_cons, isBoolCell]
    simp [dtypeOf, h1, h2]

/-- On a column of missing-or-string cells, `pd.to_numeric` succeeds
exactly when every present string parses as a number. -/
theorem coerceOk_eq_of_strOrNone {vals : List (Option JValue)}
    (h : ∀ ov ∈ vals, ov = none ∨ ∃ s, ov = some (.str s)) :
    coerceOk vals = vals.all numericStrCell := by
  induction vals with
  | nil => rfl
  | cons x t ih =>
    have hx := h x (List.mem_cons_self x t)
    have ht := ih (fun a ha => h a (List.mem_cons_of_mem _ ha))
    have hcell : coerceCell x = numericStrCell x := by
      rcases hx with rfl | ⟨s, rfl⟩ <;> rfl
    simp [coerceOk, List.all_cons, hcell] at ht ⊢
    rw [ht]

/-- Counterexample to claim C2: in the record set of scenario A of the
specification, every value of field `phase` is a string that fully parses
as a number, yet the classifier puts `phase` among the categorical
columns and not among the numeric ones — pandas dtype inference marks
string columns as `object` regardless of their content, and no coercion
runs because a numeric column already exists. -/
theorem classify_numeric_string_counterexample :
    specNumericField
        [[("phase", .str "3"), ("tasks", .num 12 0)],
         [("phase", .str "6"), ("tasks", .num 20 0)]] "phase" = true ∧
    "phase" ∉ numColsOf
        [[("phase", .str "3"), ("tasks", .num 12 0)],
         [("phase", .str "6"), ("tasks", .num 20 0)]] ∧
    "phase" ∈ catColsOf
        [[("phase", .str "3"), ("tasks", .num 12 0)],
         [("phase", .str "6"), ("tasks", .num 20 0)]] := by
  refine ⟨rfl, ?_, ?_⟩ <;> decide

/-- Claim C2 as amended: when the dtype partition already yields both a
categorical and a numeric column (so the coercion fallback does not run),
a field is classified numeric exactly when its column dtype is numeric —
actual numbers, not numeric-looking strings — and a field whose values
are all strings is classified categorical even when every string parses
as a number. -/
theorem classify_dtype_amended (recs : List Rec) (F : String)
    (hc : catColsOf recs ≠ []) (hn : numColsOf recs ≠ [])
    (hF : F ∈ columnsOf recs) :
    (F ∈ numColsOf recs ↔ dtypeOf (colVals recs F) = DType.numericT) ∧
    ((colVals recs F).all isStrCell = true → F ∈ catColsOf recs) := by
  constructor
  · simp [numColsOf, List.mem_filter, hF]
  · intro hstr
    simp [catColsOf, List.mem_filter, hF, dtypeOf_objectT_of_all_str hstr]

/-- Witness for the amended C2 on a record set with one string column and
one numeric column. -/
theorem classify_dtype_amended_witness :
    catColsOf [[("a", .str "x"), ("b", .num 1 0)]] ≠ [] ∧
    numColsOf [[("a", .str "x"), ("b", .num 1 0)]] ≠ [] ∧
    "b" ∈ columnsOf [[("a", .str "x"), ("b", .num 1 0)]] ∧
    (("b" ∈ numColsOf [[("a", .str "x"), ("b", .num 1 0)]] ↔
        dtypeOf (colVals [[("a", .str "x"), ("b", .num 1 0)]] "b") = DType.numericT) ∧
      ((colVals [[("a", .str "x"), ("b", .num 1 0)]] "b").all isStrCell = true →
        "b" ∈ catColsOf [[("a", .str "x"), ("b", .num 1 0)]])) :=
  ⟨by decide, by decide, by decide,
    classify_dtype_amended _ "b" (by decide) (by decide) (by decide)⟩

/-- A nonempty list is a cons. -/
theorem exists_cons_of_ne_nil {α : Type} {l : List α} (h : l ≠ []) :
    ∃ a t, l = a :: t := by
  cases l with
  | nil => exact absurd rfl h
  | cons a t => exact ⟨a, t, rfl⟩

/-- A nonempty list has `isEmpty = false`. -/
theorem isEmpty_false_of_ne_nil {α : Type} {l : List α} (h : l ≠ []) :
    l.isEmpty = false := by
  cases l with
  | nil => exact absurd rfl h
  | cons a t => rfl

/-- When the dtype partition yields both roles, `auto_generate_chart`
binds the first categorical and first numeric column and delegates to the
chart type branch. -/
theorem auto_chart_binds (recs : List Rec) (mode : String)
    (h0 : recs ≠ []) (h2 : 2 ≤ (columnsOf recs).length)
    (hc : catColsOf recs ≠ []) (hn : numColsOf recs ≠ []) :
    ∃ c n, auto_generate_chart recs mode = mkChartSpec c n mode := by
  obtain ⟨c, cs, hcat⟩ := exists_cons_of_ne_nil hc
  obtain ⟨n, ns, hnum⟩ := exists_cons_of_ne_nil hn
  refine ⟨c, n, ?_⟩
  simp [auto_generate_chart, isEmpty_false_of_ne_nil h0, Nat.not_lt.mpr h2,
    hcat, hnum]

/-- When the dtype partition yields both roles, `create_chart_dev` binds
the first text and first numeric column and applies the dev chart type
branch, where `auto` depends on the record count. -/
theorem dev_chart_binds (recs : List Rec) (mode : String)
    (h0 : recs ≠ []) (hc : catColsOf recs ≠ []) (hn : numColsOf recs ≠ []) :
    ∃ x y, create_chart_dev recs mode =
      (let t :=
        if mode = "auto" then
          if recs.length ≤ 5 then "pie" else "bar"
        else mode
       if t = "pie" then some ⟨.distribution, x, y⟩
       else some ⟨.comparison, x, y⟩) := by
  obtain ⟨x, xs, hcat⟩ := exists_cons_of_ne_nil hc
  obtain ⟨y, ys, hnum⟩ := exists_cons_of_ne_nil hn
  refine ⟨x, y, ?_⟩
  simp [create_chart_dev, isEmpty_false_of_ne_nil h0, hcat, hnum]

/-- Counterexample to claim C5: on a one-record set with a categorical
and a numeric field, the dev pipeline `create_chart_dev` in `auto` mode
selects a pie chart (distribution) because the record count is at most
five — the selected kind is not comparison and does depend on the number
of records, contradicting the claim for the cited dev source. -/
theorem create_chart_dev_auto_pie_counterexample :
    create_chart_dev [[("a", .str "x"), ("b", .num 1 0)]] "auto" =
      some ⟨.distribution, "a", "b"⟩ := rfl

/-- Claim C5 as amended: with both roles present, the production
`auto_generate_chart` maps `auto` to comparison independent of the record
count and honors `bar` and `pie` verbatim, while the dev
`create_chart_dev` maps `auto` to distribution for five or fewer records
and comparison otherwise, honoring `bar` and `pie` verbatim. -/
theorem chart_kind_selection_amended (recs : List Rec)
    (h0 : recs ≠ []) (h2 : 2 ≤ (columnsOf recs).length)
    (hc : catColsOf recs ≠ []) (hn : numColsOf recs ≠ []) :
    (auto_generate_chart recs "auto").map ChartSpec.kind = some .comparison ∧
    (auto_generate_chart recs "bar").map ChartSpec.kind = some .comparison ∧
    (auto_generate_chart recs "pie").map ChartSpec.kind = some .distribution ∧
    (create_chart_dev recs "auto").map ChartSpec.kind =
      some (if recs.length ≤ 5 then ChartKind.distribution else .comparison) ∧
    (create_chart_dev recs "bar").map ChartSpec.kind = some .comparison ∧
    (create_chart_dev recs "pie").map ChartSpec.kind = some .distribution := by
  obtain ⟨c1, n1, e1⟩ := auto_chart_binds recs "auto" h0 h2 hc hn
  obtain ⟨c2, n2, e2⟩ := auto_chart_binds recs "bar" h0 h2 hc hn
  obtain ⟨c3, n3, e3⟩ := auto_chart_binds recs "pie" h0 h2 hc hn
  obtain ⟨x1, y1, d1⟩ := dev_chart_binds recs "auto" h0 hc hn
  obtain ⟨x2, y2, d2⟩ := dev_chart_binds recs "bar" h0 hc hn
  obtain ⟨x3, y3, d3⟩ := dev_chart_binds recs "pie" h0 hc hn
  refine ⟨?_, ?_, ?_, ?_, ?_, ?_⟩
  · rw [e1]; rfl
  · rw [e2]; rfl
  · rw [e3]; rfl
  · rw [d1]
    by_cases h5 : recs.length ≤ 5 <;> simp [h5]
  · rw [d2]; rfl
  · rw [d3]; rfl

/-- Witness for the amended C5 on a one-record set with one categorical
and one numeric field (so the dev `auto` branch takes the pie side). -/
theorem chart_kind_selection_amended_witness :
    [[("u", JValue.str "x"), ("v", JValue.num 2 0)]] ≠ ([] : List Rec) ∧
    2 ≤ (columnsOf [[("u", JValue.str "x"), ("v", JValue.num 2 0)]]).length ∧
    catColsOf [[("u", JValue.str "x"), ("v", JValue.num 2 0)]] ≠ [] ∧
    numColsOf [[("u", JValue.str "x"), ("v", JValue.num 2 0)]] ≠ [] ∧
    ((auto_generate_chart [[("u", JValue.str "x"), ("v", JValue.num 2 0)]]
        "auto").map ChartSpec.kind = some .comparison ∧
      (auto_generate_chart [[("u", JValue.str "x"), ("v", JValue.num 2 0)]]
        "bar").map ChartSpec.kind = some .comparison ∧
      (auto_generate_chart [[("u", JValue.str "x"), ("v", JValue.num 2 0)]]
        "pie").map ChartSpec.kind = some .distribution ∧
      (create_chart_dev [[("u", JValue.str "x"), ("v", JValue.num 2 0)]]
        "auto").map ChartSpec.kind =
        some (if ([[("u", JValue.str "x"), ("v", JValue.num 2 0)]] : List Rec).length ≤ 5
          then ChartKind.distribution else .comparison) ∧
      (create_chart_dev [[("u", JValue.str "x"), ("v", JValue.num 2 0)]]
        "bar").map ChartSpec.kind = some .comparison ∧
      (create_chart_dev [[("u", JValue.str "x"), ("v", JValue.num 2 0)]]
        "pie").map ChartSpec.kind = some .distribution) :=
  ⟨List.cons_ne_nil _ _, by decide, by decide, by decide,
    chart_kind_selection_amended _ (List.cons_ne_nil _ _) (by decide)
      (by decide) (by decide)⟩

/-- Rows built from records are accepted back as those records. -/
theorem allObjs_map_obj (recs : List Rec) :
    allObjs (recs.map JValue.obj) = some recs := by
  induction recs with
  | nil => rfl
  | cons r t ih => simp [allObjs, ih]

/-- Claim C8: when the dtype partition lacks a categorical or a numeric
column and the best-effort coercion of the second column fails, chart
generation yields `None` and the pipeline outcome keeps the non-null
records next to a null chart — the distinct not-chartable outcome, not an
exception and not an empty chart. -/
theorem not_chartable_keeps_records (recs : List Rec) (mode : String)
    (h0 : recs ≠ [])
    (h2 : catColsOf recs = [] ∨ numColsOf recs = [])
    (h3 : ∀ c1, (columnsOf recs)[1]? = some c1 →
      coerceOk (colVals recs c1) = false) :
    auto_generate_chart recs mode = none ∧
    run_query_post (some (recs.map JValue.obj)) mode =
      { extracted_data := some (recs.map JValue.obj), chart := none } := by
  have hchart : auto_generate_chart recs mode = none := by
    have hor : ((catColsOf recs).isEmpty || (numColsOf recs).isEmpty) = true := by
      rcases h2 with h | h <;> simp [h]
    simp only [auto_generate_chart, isEmpty_false_of_ne_nil h0, Bool.false_eq_true,
      if_false, hor, if_true]
    by_cases hl : (columnsOf recs).length < 2
    · simp [hl]
    · simp only [hl, if_false]
      cases hcols : columnsOf recs with
      | nil => rfl
      | cons c0 t =>
        cases t with
        | nil => rfl
        | cons c1 t2 =>
          have := h3 c1 (by rw [hcols]; simp)
          simp [this]
  refine ⟨hchart, ?_⟩
  have hne : (recs.map JValue.obj).isEmpty = false := by
    cases recs with
    | nil => exact absurd rfl h0
    | cons r t => rfl
  simp [run_query_post, hne, allObjs_map_obj, hchart]

/-- Witness for C8 at scenario C of the specification: the all-string
one-record input is recovered by extraction, has no numeric column, its
second column does not coerce, and the pipeline returns the records with
a null chart. -/
theorem not_chartable_keeps_records_witness :
    extract_json "\x7b\"status\": \"ok\", \"detail\": \"done\"\x7d" =
      some [.obj [("status", .str "ok"), ("detail", .str "done")]] ∧
    numColsOf [[("status", JValue.str "ok"), ("detail", JValue.str "done")]] = [] ∧
    coerceOk (colVals [[("status", JValue.str "ok"), ("detail", JValue.str "done")]]
      "detail") = false ∧
    auto_generate_chart [[("status", JValue.str "ok"), ("detail", JValue.str "done")]]
      "auto" = none ∧
    run_query_post
      (some [JValue.obj [("status", JValue.str "ok"), ("detail", JValue.str "done")]])
      "auto" =
      { extracted_data :=
          some [JValue.obj [("status", JValue.str "ok"), ("detail", JValue.str "done")]]
        chart := none } := by
  have h := not_chartable_keeps_records
    [[("status", JValue.str "ok"), ("detail", JValue.str "done")]] "auto"
    (List.cons_ne_nil _ _) (Or.inr (by decide))
    (by
      intro c1 hc1
      have h2 : some "detail" = some c1 := hc1
      injection h2 with h3
      subst h3
      decide)
  exact ⟨rfl, by decide, by decide, h.1, h.2⟩

/-- Claim C10: on an all-string record set, the dtype partition has no
numeric column, so chart generation takes the fallback — first column
categorical, `pd.to_numeric` attempted on the second column only — and a
chart is produced exactly when there are at least two columns and every
present value of the second column parses as a number; columns beyond the
second are never tried. -/
theorem all_string_fallback_chart_iff (recs : List Rec)
    (h0 : recs ≠ []) (hs : allStrRecs recs = true) :
    (auto_generate_chart recs "auto").isSome = true ↔
      (2 ≤ (columnsOf recs).length ∧
        (colVals recs ((columnsOf recs).getD 1 "")).all numericStrCell = true) := by
  have hcells := cells_str hs
  have hnum : numColsOf recs = [] := by
    rw [numColsOf, List.filter_eq_nil_iff]
    intro c hc
    simp [dtypeOf_objectT_of_strOrNone (hcells c)]
  simp only [auto_generate_chart, isEmpty_false_of_ne_nil h0, Bool.false_eq_true,
    if_false, hnum, List.isEmpty_nil, Bool.or_true, if_true]
  by_cases hl : (columnsOf recs).length < 2
  · simp [hl]
  · have h2 : 2 ≤ (columnsOf recs).length := Nat.not_lt.mp hl
    simp only [hl, if_false]
    cases hcols : columnsOf recs with
    | nil => rw [hcols] at h2; simp at h2
    | cons c0 t =>
      cases t with
      | nil => rw [hcols] at h2; simp at h2
      | cons c1 t2 =>
        have hget : (columnsOf recs).getD 1 "" = c1 := by rw [hcols]; rfl
        have hco := coerceOk_eq_of_strOrNone (hcells c1)
        rw [hget, hcols] at *
        by_cases hall : (colVals recs c1).all numericStrCell = true
        · rw [hall] at hco
          simp [hco, hall, mkChartSpec]
        · have : coerceOk (colVals recs c1) = false := by
            rw [hco]
            exact Bool.not_eq_true _ ▸ (Bool.eq_false_iff.mpr hall)
          simp [this, hall]

/-- Witness for C10: a one-record all-string set whose second column
value parses as a number, so a chart is produced. -/
theorem all_string_fallback_chart_iff_witness :
    ([[("a", JValue.str "x"), ("b", JValue.str "3")]] : List Rec) ≠ [] ∧
    allStrRecs [[("a", JValue.str "x"), ("b", JValue.str "3")]] = true ∧
    ((auto_generate_chart [[("a", JValue.str "x"), ("b", JValue.str "3")]]
        "auto").isSome = true ↔
      (2 ≤ (columnsOf [[("a", JValue.str "x"), ("b", JValue.str "3")]]).length ∧
        (colVals [[("a", JValue.str "x"), ("b", JValue.str "3")]]
          ((columnsOf [[("a", JValue.str "x"), ("b", JValue.str "3")]]).getD 1 "")).all
          numericStrCell = true)) :=
  ⟨List.cons_ne_nil _ _, by decide,
    all_string_fallback_chart_iff _ (List.cons_ne_nil _ _) (by decide)⟩

/-! ## Claim about persistence -/

/-- One entry round-trips on the persisted fields. -/
theorem persistedView_roundtrip (e : ChatEntry) :
    persistedView (jsonToEntry (entryToJson e)) = persistedView e := by
  obtain ⟨q, tr, ed, ct, hd, rr, ts, ch⟩ := e
  cases ed <;> rfl

/-- Claim C9: saving a chat history and loading it back reproduces each
entry on the persisted fields — same query text, same raw response text,
same extracted records with the same field order (records are ordered
field lists, preserved verbatim through the serialized shape), and same
chart type. Load after save is the identity on `persistedView`. -/
theorem save_load_roundtrip (h : List ChatEntry) :
    (load_history (save_history h)).map persistedView = h.map persistedView := by
  induction h with
  | nil => rfl
  | cons e t ih =>
    show persistedView (jsonToEntry (entryToJson e)) ::
        ((t.map entryToJson).map jsonToEntry).map persistedView =
      persistedView e :: t.map persistedView
    rw [persistedView_roundtrip]
    exact congrArg _ ih

/-- Witness for C9 on a concrete one-entry history with extracted data
and a chart type. -/
theorem save_load_roundtrip_witness :
    (load_history (save_history
        [{ query := "q", text_response := "t"
           extracted_data := some [.obj [("a", .num 1 0)]]
           chart_type := "bar", has_data := true
           raw_response := "raw", timestamp := "2024-01-01"
           chart := none }])).map persistedView =
      ([{ query := "q", text_response := "t"
          extracted_data := some [.obj [("a", .num 1 0)]]
          chart_type := "bar", has_data := true
          raw_response := "raw", timestamp := "2024-01-01"
          chart := none }] : List ChatEntry).map persistedView :=
  save_load_roundtrip _
